import Mathlib

/-!
Verification of the change-detection pipeline in `change_detection_map.py`
(repository willjayeo/change_detection).

The Python source is shallowly embedded below:
* the RGB mapping mini-language parser `get_rgb_map_from_string`,
* the numpy array operations used by `make_rgb_stack` and
  `sort_arrays_into_rgb_order`, modelled on an n-dimensional array type,
* the normalizer `normalise_arrays` on flattened sample lists over ℚ,
* the grid reconciliation step (`resample_arrays` plus the shape guard in
  `main`), with the external rioxarray reprojection collaborator modelled
  from the specification.

Python exceptions become `Except` error values; numeric samples are modelled
as rationals (the concrete inputs used in counterexamples are all exactly
representable as binary floats, so the ℚ results coincide with the numpy
float results).
-/

namespace ChangeDetection

/-! ### RGB mapping parser (`get_rgb_map_from_string`, lines 29–68) -/

/-- A reference to one of the two input rasters, the `'a'` / `'b'` cases of a
mapping slot.  A slot is an `Option RgbChar`: `none` models Python's `None`
(the `'0'` empty-channel case). -/
inductive RgbChar where
  | a
  | b
deriving DecidableEq, Repr

/-- The two distinct `ValueError`s raised by `get_rgb_map_from_string`:
one for a string whose length is not 3 (carrying the offending string), one
for an invalid character (carrying the offending character). -/
inductive RgbMapError where
  | badLength (s : String)
  | badChar (c : Char)
deriving DecidableEq, Repr

/-- The `for colour in rgb_map_str` loop body of `get_rgb_map_from_string`:
`'a'` and `'b'` are appended as raster references, `'0'` as `None`, and any
other character raises `ValueError` (the first offending character wins,
as in the left-to-right Python loop). -/
def rgbLoop : List Char → Except RgbMapError (List (Option RgbChar))
  | [] => Except.ok []
  | c :: rest =>
    match c with
    | 'a' => (rgbLoop rest).map (fun r => some RgbChar.a :: r)
    | 'b' => (rgbLoop rest).map (fun r => some RgbChar.b :: r)
    | '0' => (rgbLoop rest).map (fun r => none :: r)
    | _ => Except.error (RgbMapError.badChar c)

/-- Embedding of `get_rgb_map_from_string` (lines 29–68).  The length-3
check comes first; then each character is classified in order.  The returned
Python tuple is modelled positionally as a list. -/
def get_rgb_map_from_string (s : String) : Except RgbMapError (List (Option RgbChar)) :=
  if s.length ≠ 3 then Except.error (RgbMapError.badLength s)
  else rgbLoop s.data

/-- A character of the mapping mini-language's alphabet `{a, b, 0}`. -/
def goodChar (c : Char) : Prop := c = 'a' ∨ c = 'b' ∨ c = '0'

instance : DecidablePred goodChar := fun c => by
  unfold goodChar; infer_instance

/-- The positional slot a valid character denotes (used to state what the
parser returns on valid input). -/
def slotOfChar (c : Char) : Option RgbChar :=
  if c = 'a' then some RgbChar.a else if c = 'b' then some RgbChar.b else none

/-- The first character of the string outside the alphabet `{a, b, 0}`,
if any. -/
def firstBad (l : List Char) : Option Char :=
  l.find? (fun c => ¬ goodChar c)

/-! ### The numpy / xarray array model

`normalise_arrays` only performs elementwise arithmetic and whole-array
reductions, so it is embedded on flattened sample lists further below.  The
channel composer (`sort_arrays_into_rgb_order` / `make_rgb_stack`) is
shape-sensitive, so for it arrays are modelled as a nested n-dimensional
tree: `cell` is a scalar sample, `dim` a list of subarrays along one axis.
Rectangular trees correspond exactly to numpy arrays. -/

inductive NDArray where
  | cell (v : ℚ)
  | dim (xs : List NDArray)

/-- `a.shape`: dimension sizes along the first spine of the tree (for the
rectangular trees that model numpy arrays this is the numpy shape; a numpy
array with an empty axis cannot carry trailing sizes in this encoding, and
none appears in the pipeline). -/
def NDArray.shape : NDArray → List Nat
  | .cell _ => []
  | .dim [] => [0]
  | .dim (x :: xs) => (xs.length + 1) :: x.shape

/-- `numpy.zeros(s)`. -/
def NDArray.zeros : List Nat → NDArray
  | [] => .cell 0
  | n :: rest => .dim (List.replicate n (NDArray.zeros rest))

/-- `numpy.zeros_like(a)`: an all-zero array with the shape of `a`. -/
def zeros_like (a : NDArray) : NDArray := NDArray.zeros a.shape

/-- `a.ndim`, the number of axes. -/
def NDArray.ndim (a : NDArray) : Nat := a.shape.length

/-- Python `len(a)` on a numpy array: the size of the first axis (`len` of a
zero-dimensional array raises in numpy; that case is never reached here). -/
def NDArray.nlen : NDArray → Nat
  | .dim xs => xs.length
  | .cell _ => 0

/-- `a[i]` along the first axis (total, with a zero default out of range;
in-range indexing on rectangular arrays agrees with numpy). -/
def NDArray.child (a : NDArray) (i : Nat) : NDArray :=
  match a with
  | .dim xs => xs.getD i (.cell 0)
  | .cell v => .cell v

def NDArray.cellVal : NDArray → ℚ
  | .cell v => v
  | .dim _ => 0

/-- `a[k, i, j]` for a 3-dimensional array. -/
def NDArray.at3 (a : NDArray) (k i j : Nat) : ℚ :=
  (((a.child k).child i).child j).cellVal

mutual

/-- Every sample of the array is zero. -/
def NDArray.allZero : NDArray → Bool
  | .cell v => v == 0
  | .dim xs => NDArray.allZeroList xs

def NDArray.allZeroList : List NDArray → Bool
  | [] => true
  | x :: xs => NDArray.allZero x && NDArray.allZeroList xs

end

/-- The rows contributed by one argument of `numpy.vstack`: `atleast_2d` is
applied (a scalar becomes a 1×1 array, a 1-dimensional array a single row),
then the array is split along its first axis. -/
def NDArray.vrows : NDArray → List NDArray
  | .cell v => [NDArray.dim [NDArray.cell v]]
  | .dim xs => if (NDArray.dim xs).ndim = 1 then [NDArray.dim xs] else xs

/-- `numpy.vstack(xs)`: concatenation of all arguments along the first axis
(after `atleast_2d`). -/
def np_vstack (xs : List NDArray) : NDArray :=
  NDArray.dim (xs.foldr (fun x acc => x.vrows ++ acc) [])

/-- `numpy.squeeze(a, axis=1)`: drop a singleton second axis (numpy raises
when that axis does not have size one; the embedding is only applied where
it does). -/
def np_squeeze1 : NDArray → NDArray
  | .dim xs =>
      NDArray.dim (xs.map (fun x =>
        match x with
        | .dim [y] => y
        | other => other))
  | a => a

/-- `a.transpose((1, 2, 0))`: numpy requires the axis list to be a
permutation of all axes, so a `ValueError` is raised unless `a` is
3-dimensional; otherwise `result[i, j, k] = a[k, i, j]`. -/
def np_transpose120 (a : NDArray) : Except String NDArray :=
  if a.ndim = 3 then
    let d0 := a.shape.getD 0 0
    let d1 := a.shape.getD 1 0
    let d2 := a.shape.getD 2 0
    Except.ok (NDArray.dim ((List.range d1).map (fun i =>
      NDArray.dim ((List.range d2).map (fun j =>
        NDArray.dim ((List.range d0).map (fun k =>
          NDArray.cell (a.at3 k i j))))))))
  else Except.error "axes dont match array"

/-- The shape of an `Except`-wrapped stacking result (used to state facts
about the composer's output without equality on whole arrays). -/
def exceptShape (e : Except String NDArray) : Option (List Nat) :=
  e.toOption.map NDArray.shape

/-- Sample an `Except`-wrapped 3-dimensional result at index `(k, i, j)`. -/
def exceptAt3 (e : Except String NDArray) (k i j : Nat) : Option ℚ :=
  e.toOption.map (fun a => a.at3 k i j)

/-! ### Channel composer (`sort_arrays_into_rgb_order`, `make_rgb_stack`) -/

/-- Embedding of `sort_arrays_into_rgb_order` (lines 196–226): walk the
mapping tuple in order; `'a'` and `'b'` select the corresponding array via
the `arrays` dictionary, `None` contributes `numpy.zeros_like(array_a)`. -/
def sort_arrays_into_rgb_order (array_a array_b : NDArray) :
    List (Option RgbChar) → List NDArray
  | [] => []
  | key :: rest =>
      (match key with
       | none => zeros_like array_a
       | some RgbChar.a => array_a
       | some RgbChar.b => array_b) :: sort_arrays_into_rgb_order array_a array_b rest

/-- Embedding of `make_rgb_stack` (lines 166–193): vstack the selected
channels, squeeze axis 1 when `len(rgb_array) == 4` (note: Python `len` is
the size of the first axis, not the number of axes), then transpose to
(row, col, band). -/
def make_rgb_stack (array_a array_b : NDArray) (rgb_map : List (Option RgbChar)) :
    Except String NDArray :=
  let channels := sort_arrays_into_rgb_order array_a array_b rgb_map
  let rgb_array := np_vstack channels
  let rgb_array2 := if rgb_array.nlen = 4 then np_squeeze1 rgb_array else rgb_array
  np_transpose120 rgb_array2

/-- Modelled from the spec: the Channel Composer of §4.5 — "or (3,
extra-singleton-axis, rows, cols) if the source rasters carry a singleton
auxiliary axis ... In the latter case, the singleton axis (index 1 of the 4)
must be dropped before the final transpose."  The squeeze is therefore
guarded on the stacked array being 4-dimensional (its number of axes), where
the code guards on `len(rgb_array) == 4` (the size of its first axis). -/
def make_rgb_stack_spec (array_a array_b : NDArray) (rgb_map : List (Option RgbChar)) :
    Except String NDArray :=
  let channels := sort_arrays_into_rgb_order array_a array_b rgb_map
  let rgb_array := np_vstack channels
  let rgb_array2 := if rgb_array.ndim = 4 then np_squeeze1 rgb_array else rgb_array
  np_transpose120 rgb_array2

/-- The spec-side selection rule for one mapping slot (§4.5): raster A for an
A-reference, raster B for a B-reference, an all-zero array shaped like A for
an empty slot. -/
def slotSelect (array_a array_b : NDArray) (slot : Option RgbChar) : NDArray :=
  match slot with
  | none => zeros_like array_a
  | some RgbChar.a => array_a
  | some RgbChar.b => array_b

/-! ### Normalizer (`normalise_arrays`, lines 124–163)

The function only uses elementwise arithmetic, whole-array reductions
(`min`, `max`, `numpy.percentile`) and elementwise clipping, so a raster is
modelled by the flattened list of its samples. -/

/-- Minimum sample of a (nonempty) raster, `array.min()`. -/
def listMin (xs : List ℚ) : ℚ := xs.foldl min (xs.headD 0)

/-- Maximum sample of a (nonempty) raster, `array.max()`. -/
def listMax (xs : List ℚ) : ℚ := xs.foldl max (xs.headD 0)

/-- Insert into an ascending-sorted list (models numpy's ascending sort). -/
def insertAsc (x : ℚ) : List ℚ → List ℚ
  | [] => [x]
  | y :: ys => if x ≤ y then x :: y :: ys else y :: insertAsc x ys

/-- `numpy.sort` (ascending) on the flattened samples. -/
def npSort (xs : List ℚ) : List ℚ := xs.foldr insertAsc []

/-- Floor of a nonnegative rational as a natural number (used for the
percentile rank; percentiles are taken in [0, 100] so the rank is ≥ 0). -/
def ratFloorNat (r : ℚ) : Nat := r.num.toNat / r.den

/-- `numpy.percentile(xs, p)` with numpy's default linear interpolation:
sort, take rank `r = p (n-1) / 100`, and interpolate between the samples at
`⌊r⌋` and `⌊r⌋ + 1` (numpy raises on an empty array; that case is never
reached in the pipeline). -/
def np_percentile (xs : List ℚ) (p : ℚ) : ℚ :=
  let s := npSort xs
  match s with
  | [] => 0
  | _ :: _ =>
    let n := s.length
    let r := p * ((n : ℚ) - 1) / 100
    let i := ratFloorNat r
    let lo := s.getD i 0
    let hi := s.getD (i + 1) lo
    lo + (r - (i : ℚ)) * (hi - lo)

/-- `v.clip(0.0, 1.0)` on one sample. -/
def np_clip01 (v : ℚ) : ℚ := min (max v 0) 1

/-- Embedding of `normalise_arrays` (lines 124–163).  `percentile_range`
models the optional two-percentile list, `clip` the `clip` keyword (Python's
`clip: bool = True` can also be passed `None`; the body tests
`if clip is not None`).  Line 157 is transcribed with its operator
precedence exactly as written:
`normalised_array = (array - min_value) / max_value - min_value`. -/
def normalise_arrays (array : List ℚ) (percentile_range : Option (ℚ × ℚ))
    (clip : Option Bool) : List ℚ :=
  let mm : ℚ × ℚ :=
    match percentile_range with
    | some pr => (np_percentile array pr.1, np_percentile array pr.2)
    | none => (listMin array, listMax array)
  let min_value := mm.1
  let max_value := mm.2
  let normalised_array := array.map (fun v => (v - min_value) / max_value - min_value)
  match clip with
  | none => normalised_array
  | some _ => normalised_array.map np_clip01

/-- The per-sample output mandated by spec §4.4: "Output value per sample:
`(value - low) / (high - low)`" (the fully parenthesized form), stated for
given range bounds and before any clamping. -/
def normalise_formula_spec (array : List ℚ) (low high : ℚ) : List ℚ :=
  array.map (fun v => (v - low) / (high - low))

/-- Modelled from the spec (§4.4, joint mode): both rasters normalised by
one shared range pooled from the union of both rasters' values, using the
spec's corrected per-sample formula, clamped to [0, 1]. -/
def normalise_joint_spec (a b : List ℚ) : List ℚ × List ℚ :=
  let low := listMin (a ++ b)
  let high := listMax (a ++ b)
  (a.map (fun v => np_clip01 ((v - low) / (high - low))),
   b.map (fun v => np_clip01 ((v - low) / (high - low))))

/-- The normalization step of `main` (lines 268–275): the `--stretch` flag
selects the percentile range [2, 98], and each raster is passed separately
to `normalise_arrays` (with the defaulted `clip=True`). -/
def pipeline_normalise (img_a img_b : List ℚ) (stretch : Bool) : List ℚ × List ℚ :=
  let stretchRange : Option (ℚ × ℚ) := if stretch then some (2, 98) else none
  (normalise_arrays img_a stretchRange (some true),
   normalise_arrays img_b stretchRange (some true))

/-! ### Grid reconciliation (`resample_arrays`, lines 71–85, and the shape
guard of `main`, lines 253–257) -/

/-- A georeferenced raster: its numpy shape (as loaded by rioxarray,
typically `[1, rows, cols]`), the parameters of its geotransform / extent,
and its flattened sample values. -/
structure Raster where
  shape : List Nat
  transform : List ℚ
  data : List ℚ
deriving DecidableEq, Repr

/-- Modelled from the spec: the external reprojection collaborator
`rio.reproject_match` (§6: `reproject_to_match(source, target)`; §4.2:
"output grid, resolution, and extent must match the target raster exactly",
"nearest-neighbor or library-default resampling is acceptable").  The grid
is modelled by `shape` and `transform`; values are carried over by
proportional nearest-index resampling. -/
def reproject_match (source target : Raster) : Raster :=
  let nt := target.shape.foldr (fun x acc => x * acc) 1
  let ns := source.data.length
  { shape := target.shape
    transform := target.transform
    data := (List.range nt).map (fun i => source.data.getD (i * ns / nt) 0) }

/-- Embedding of `resample_arrays` (lines 71–85): when the sum of array A's
shape dimensions exceeds the sum of array B's, A is reprojected onto B's
grid, otherwise B is reprojected onto A's grid. -/
def resample_arrays (array_a array_b : Raster) : Raster × Raster :=
  if array_a.shape.sum > array_b.shape.sum then
    (reproject_match array_a array_b, array_b)
  else
    (array_a, reproject_match array_b array_a)

/-- The grid-reconciliation step of `main` (lines 253–257):
`resample_arrays` is invoked only when the two shapes differ. -/
def reconcile_grids (a b : Raster) : Raster × Raster :=
  if a.shape ≠ b.shape then resample_arrays a b else (a, b)

/-! ### Concrete rasters used by the closed instances below -/

/-- A 2×2 raster with the usual single leading band axis: shape (1, 2, 2),
samples 1..4. -/
def rasterA3 : NDArray :=
  NDArray.dim [NDArray.dim [NDArray.dim [NDArray.cell 1, NDArray.cell 2],
                            NDArray.dim [NDArray.cell 3, NDArray.cell 4]]]

/-- Shape (1, 2, 2), samples 5..8. -/
def rasterB3 : NDArray :=
  NDArray.dim [NDArray.dim [NDArray.dim [NDArray.cell 5, NDArray.cell 6],
                            NDArray.dim [NDArray.cell 7, NDArray.cell 8]]]

/-- The same raster as `rasterA3` carrying the singleton auxiliary axis of
§4.5 (e.g. the Sentinel-2 layout named in the source's TODO): shape
(1, 1, 2, 2). -/
def rasterA4 : NDArray := NDArray.dim [rasterA3]

/-- Shape (1, 1, 2, 2), samples 5..8. -/
def rasterB4 : NDArray := NDArray.dim [rasterB3]

/-- The parsed default mapping "aab". -/
def mapAAB : List (Option RgbChar) := [some RgbChar.a, some RgbChar.a, some RgbChar.b]

/-- A concrete raster on a 3-sample grid. -/
def rasterSmall : Raster :=
  { shape := [1, 2, 2], transform := [100, 10], data := [1, 2, 3, 4] }

/-- A concrete raster on a finer grid (larger dimension sum). -/
def rasterBig : Raster :=
  { shape := [1, 4, 4], transform := [100, 5],
    data := [1, 1, 2, 2, 1, 1, 2, 2, 3, 3, 4, 4, 3, 3, 4, 4] }

/-! ## Helper lemmas -/

theorem rgbLoop_ok_of_good (l : List Char) (h : ∀ c ∈ l, goodChar c) :
    rgbLoop l = Except.ok (l.map slotOfChar) := by
  induction l with
  | nil => rfl
  | cons c rest ih =>
    have hc : goodChar c := h c (List.mem_cons_self c rest)
    have hrest : ∀ x ∈ rest, goodChar x := fun x hx => h x (List.mem_cons_of_mem c hx)
    rcases hc with hc | hc | hc <;> subst hc <;>
      simp [rgbLoop, ih hrest, Except.map, slotOfChar]

theorem rgbLoop_cons_bad (d : Char) (rest : List Char) (hd : ¬ goodChar d) :
    rgbLoop (d :: rest) = Except.error (RgbMapError.badChar d) := by
  have h1 : d ≠ 'a' := fun hh => hd (Or.inl hh)
  have h2 : d ≠ 'b' := fun hh => hd (Or.inr (Or.inl hh))
  have h3 : d ≠ '0' := fun hh => hd (Or.inr (Or.inr hh))
  simp [rgbLoop, h1, h2, h3]

theorem good_of_firstBad_none (l : List Char) (h : firstBad l = none) :
    ∀ c ∈ l, goodChar c := by
  intro c hc
  have := List.find?_eq_none.mp h c hc
  simpa using this

theorem rgbLoop_error_of_firstBad (l : List Char) (c : Char)
    (h : firstBad l = some c) : rgbLoop l = Except.error (RgbMapError.badChar c) := by
  induction l with
  | nil => simp [firstBad] at h
  | cons d rest ih =>
    by_cases hd : goodChar d
    · have hrest : firstBad rest = some c := by
        simpa [firstBad, List.find?_cons, hd] using h
      rcases hd with h1 | h1 | h1 <;> subst h1 <;>
        simp [rgbLoop, ih hrest, Except.map]
    · have hdc : d = c := by
        simpa [firstBad, List.find?_cons, hd] using h
      subst hdc
      exact rgbLoop_cons_bad d rest hd

theorem rgbLoop_isOk_iff (l : List Char) :
    (∃ r, rgbLoop l = Except.ok r) ↔ ∀ c ∈ l, goodChar c := by
  constructor
  · intro hex
    cases h : firstBad l with
    | none => exact good_of_firstBad_none l h
    | some c =>
      rcases hex with ⟨r, hr⟩
      rw [rgbLoop_error_of_firstBad l c h] at hr
      cases hr
  · intro h
    exact ⟨l.map slotOfChar, rgbLoop_ok_of_good l h⟩

theorem firstBad_mem_not_good (l : List Char) (c : Char) (h : firstBad l = some c) :
    c ∈ l ∧ ¬ goodChar c := by
  refine ⟨List.mem_of_find?_eq_some h, ?_⟩
  have := List.find?_some h
  simpa using this

theorem shape_zeros (s : List Nat) (h : ∀ d ∈ s, 0 < d) :
    (NDArray.zeros s).shape = s := by
  induction s with
  | nil => rfl
  | cons n rest ih =>
    have hn : 0 < n := h n (List.mem_cons_self n rest)
    have hrest : ∀ d ∈ rest, 0 < d := fun d hd => h d (List.mem_cons_of_mem n hd)
    obtain ⟨m, rfl⟩ : ∃ m, n = m + 1 := ⟨n - 1, by omega⟩
    simp [NDArray.zeros, List.replicate_succ, NDArray.shape, ih hrest]

theorem allZero_replicate (n : Nat) (x : NDArray) (h : x.allZero = true) :
    NDArray.allZeroList (List.replicate n x) = true := by
  induction n with
  | zero => rfl
  | succ m ih => simp [List.replicate_succ, NDArray.allZeroList, h, ih]

theorem allZero_zeros (s : List Nat) : (NDArray.zeros s).allZero = true := by
  induction s with
  | nil => rfl
  | cons n rest ih =>
    simp [NDArray.zeros, NDArray.allZero]
    exact allZero_replicate n _ ih

theorem zeros_like_shape (a : NDArray) (h : ∀ d ∈ a.shape, 0 < d) :
    (zeros_like a).shape = a.shape := shape_zeros a.shape h

theorem zeros_like_allZero (a : NDArray) : (zeros_like a).allZero = true :=
  allZero_zeros a.shape

theorem sort_arrays_eq_map (array_a array_b : NDArray)
    (rgb_order : List (Option RgbChar)) :
    sort_arrays_into_rgb_order array_a array_b rgb_order =
      rgb_order.map (slotSelect array_a array_b) := by
  induction rgb_order with
  | nil => rfl
  | cons k rest ih => simp [sort_arrays_into_rgb_order, slotSelect, ih]

/-! ## Claim theorems -/

/-- C1 (code bug): `normalise_arrays` does NOT compute
`(value - low) / (high - low)`.  Line 157 reads
`(array - min_value) / max_value - min_value`, so on the raster [10, 20]
(full range: low = 10, high = 20) the code produces [-10, -19/2] before
clamping ([0, 0] after), while the spec's parenthesized formula gives
[0, 1]. -/
theorem C1_formula_precedence_bug :
    listMin [10, 20] = 10 ∧ listMax [10, 20] = 20 ∧
    normalise_arrays [10, 20] none none = [-10, -19/2] ∧
    normalise_formula_spec [10, 20] 10 20 = [0, 1] ∧
    normalise_arrays [10, 20] none none ≠ normalise_formula_spec [10, 20] 10 20 ∧
    normalise_arrays [10, 20] none (some true) = [0, 0] := by
  have h1 : normalise_arrays [10, 20] none none = [-10, -19/2] := by
    norm_num [normalise_arrays, listMin, listMax]
  have h2 : normalise_formula_spec [10, 20] 10 20 = [0, 1] := by
    norm_num [normalise_formula_spec]
  refine ⟨by norm_num [listMin], by norm_num [listMax], h1, h2, ?_, ?_⟩
  · rw [h1, h2]; norm_num
  · norm_num [normalise_arrays, listMin, listMax, np_clip01]

/-- C2 (code bug): on the constant raster [5, 5] the normalization range
collapses (low = high = 5), yet `normalise_arrays` performs no
degenerate-range check and raises nothing — the embedded function is total
(the source body contains no raise) and silently returns [0, 0]
(pre-clamp: (5-5)/5 - 5 = -5).  No `DegenerateRangeError` exists anywhere in
the repository: `exceptions.py` defines only `UnsupportedFormatError`. -/
theorem C2_no_degenerate_range_check :
    listMin [5, 5] = listMax [5, 5] ∧
    normalise_arrays [5, 5] none (some true) = [0, 0] ∧
    normalise_arrays [5, 5] none none = [-5, -5] := by
  refine ⟨by norm_num [listMin, listMax], ?_, ?_⟩ <;>
    norm_num [normalise_arrays, listMin, listMax, np_clip01]

/-- C3 (code bug): `main` (lines 273–275) passes each raster separately to
`normalise_arrays`, so each is normalized by its own range, not by one range
pooled from both rasters — even though the comments inside
`normalise_arrays` speak of "the combined two datasets".  On A = [1, 2],
B = [3, 4] the pipeline yields ([0, 0], [0, 0]): the union of the two
outputs has maximum 0, not the claimed 1, and differs from the spec's joint
normalization ([0, 1/3], [2/3, 1]). -/
theorem C3_independent_normalisation :
    pipeline_normalise [1, 2] [3, 4] false = ([0, 0], [0, 0]) ∧
    normalise_joint_spec [1, 2] [3, 4] = ([0, 1/3], [2/3, 1]) ∧
    pipeline_normalise [1, 2] [3, 4] false ≠ normalise_joint_spec [1, 2] [3, 4] ∧
    listMax ((pipeline_normalise [1, 2] [3, 4] false).1 ++
             (pipeline_normalise [1, 2] [3, 4] false).2) = 0 := by
  have h1 : pipeline_normalise [1, 2] [3, 4] false = ([0, 0], [0, 0]) := by
    norm_num [pipeline_normalise, normalise_arrays, listMin, listMax, np_clip01]
  have h2 : normalise_joint_spec [1, 2] [3, 4] = ([0, 1/3], [2/3, 1]) := by
    norm_num [normalise_joint_spec, listMin, listMax, np_clip01]
  refine ⟨h1, h2, ?_, ?_⟩
  · rw [h1, h2]; norm_num
  · rw [h1]; norm_num [listMax]

/-- C4: the RGB mapping parser returns, for every length-3 string over
{a, b, 0}, the positional 3-tuple of slots; it errors on every string of
wrong length (identifying the string) and on every length-3 string with a
character outside the alphabet (identifying the first such character); and
it errors in no other case. -/
theorem C4_rgb_mapping (s : String) :
    (s.length ≠ 3 → get_rgb_map_from_string s = Except.error (RgbMapError.badLength s)) ∧
    (s.length = 3 → (∀ c ∈ s.data, goodChar c) →
      get_rgb_map_from_string s = Except.ok (s.data.map slotOfChar) ∧
      (s.data.map slotOfChar).length = 3) ∧
    (∀ c : Char, s.length = 3 → firstBad s.data = some c →
      get_rgb_map_from_string s = Except.error (RgbMapError.badChar c) ∧
      c ∈ s.data ∧ ¬ goodChar c) ∧
    ((∃ r, get_rgb_map_from_string s = Except.ok r) ↔
      (s.length = 3 ∧ ∀ c ∈ s.data, goodChar c)) := by
  refine ⟨?_, ?_, ?_, ?_⟩
  · intro h
    simp [get_rgb_map_from_string, h]
  · intro h hall
    refine ⟨by simp [get_rgb_map_from_string, h, rgbLoop_ok_of_good s.data hall], ?_⟩
    rw [List.length_map]
    exact h
  · intro c h hfb
    exact ⟨by simp [get_rgb_map_from_string, h, rgbLoop_error_of_firstBad s.data c hfb],
      (firstBad_mem_not_good s.data c hfb).1, (firstBad_mem_not_good s.data c hfb).2⟩
  · constructor
    · rintro ⟨r, hr⟩
      by_cases h : s.length = 3
      · refine ⟨h, ?_⟩
        rw [get_rgb_map_from_string, if_neg (by simp [h])] at hr
        exact (rgbLoop_isOk_iff s.data).mp ⟨r, hr⟩
      · rw [get_rgb_map_from_string, if_pos h] at hr
        cases hr
    · rintro ⟨h3, hall⟩
      exact ⟨s.data.map slotOfChar,
        by simp [get_rgb_map_from_string, h3, rgbLoop_ok_of_good s.data hall]⟩

/-- Witness for C4 at concrete inputs: "abb" parses positionally, "abcd" is
rejected for its length, "ab!" for its character '!'. -/
theorem C4_rgb_mapping_witness :
    get_rgb_map_from_string "abb" = Except.ok (("abb").data.map slotOfChar) ∧
    get_rgb_map_from_string "abcd" = Except.error (RgbMapError.badLength "abcd") ∧
    get_rgb_map_from_string "ab!" = Except.error (RgbMapError.badChar '!') :=
  ⟨((C4_rgb_mapping "abb").2.1 (by decide) (by decide)).1,
   (C4_rgb_mapping "abcd").1 (by decide),
   ((C4_rgb_mapping "ab!").2.2.1 '!' (by decide) (by decide)).1⟩

/-- C5: the channel composer walks the mapping slots in order and selects
raster A for an A-slot, raster B for a B-slot, and an all-zero array shaped
like raster A for an empty slot; in particular (A, empty, B) yields
[A, zeros, B] (channel 1 entirely zero) and (A, A, B) yields [A, A, B]. -/
theorem C5_channel_selection (array_a array_b : NDArray)
    (_hsh : array_a.shape = array_b.shape) (hpos : ∀ d ∈ array_a.shape, 0 < d) :
    (∀ rgb_order : List (Option RgbChar),
       sort_arrays_into_rgb_order array_a array_b rgb_order =
         rgb_order.map (slotSelect array_a array_b)) ∧
    sort_arrays_into_rgb_order array_a array_b [some RgbChar.a, none, some RgbChar.b] =
      [array_a, zeros_like array_a, array_b] ∧
    sort_arrays_into_rgb_order array_a array_b
        [some RgbChar.a, some RgbChar.a, some RgbChar.b] =
      [array_a, array_a, array_b] ∧
    (zeros_like array_a).allZero = true ∧
    (zeros_like array_a).shape = array_a.shape :=
  ⟨sort_arrays_eq_map array_a array_b, rfl, rfl, zeros_like_allZero array_a,
    zeros_like_shape array_a hpos⟩

/-- Witness for C5 on two concrete (1, 2, 2) rasters. -/
theorem C5_channel_selection_witness :
    sort_arrays_into_rgb_order rasterA3 rasterB3 [some RgbChar.a, none, some RgbChar.b] =
      [rasterA3, zeros_like rasterA3, rasterB3] ∧
    (zeros_like rasterA3).allZero = true ∧
    (zeros_like rasterA3).shape = rasterA3.shape :=
  ⟨(C5_channel_selection rasterA3 rasterB3 rfl (by decide)).2.1,
   (C5_channel_selection rasterA3 rasterB3 rfl (by decide)).2.2.2.1,
   (C5_channel_selection rasterA3 rasterB3 rfl (by decide)).2.2.2.2⟩

/-- C6 (code bug): for sources of shape (1, rows, cols) the composer does
produce a (rows, cols, 3) stack with the channels in band position (the
first five conjuncts).  But for sources carrying the singleton auxiliary
axis — shape (1, 1, 2, 2), giving a 4-dimensional (3, 1, 2, 2) stack — the
code's guard `len(rgb_array) == 4` tests the size of the first axis (3),
not the number of axes (4), so the singleton axis is never dropped and the
final `transpose((1, 2, 0))` raises a `ValueError` instead of returning a
(2, 2, 3) composite; the spec-mandated dimension-count guard returns the
(2, 2, 3) composite. -/
theorem C6_stack_squeeze_bug :
    (np_vstack (sort_arrays_into_rgb_order rasterA3 rasterB3 mapAAB)).shape = [3, 2, 2] ∧
    exceptShape (make_rgb_stack rasterA3 rasterB3 mapAAB) = some [2, 2, 3] ∧
    exceptAt3 (make_rgb_stack rasterA3 rasterB3 mapAAB) 0 0 0 = some 1 ∧
    exceptAt3 (make_rgb_stack rasterA3 rasterB3 mapAAB) 0 0 2 = some 5 ∧
    exceptAt3 (make_rgb_stack rasterA3 rasterB3 mapAAB) 1 1 0 = some 4 ∧
    (np_vstack (sort_arrays_into_rgb_order rasterA4 rasterB4 mapAAB)).shape = [3, 1, 2, 2] ∧
    (np_vstack (sort_arrays_into_rgb_order rasterA4 rasterB4 mapAAB)).nlen = 3 ∧
    make_rgb_stack rasterA4 rasterB4 mapAAB = Except.error "axes dont match array" ∧
    exceptShape (make_rgb_stack_spec rasterA4 rasterB4 mapAAB) = some [2, 2, 3] :=
  ⟨rfl, rfl, rfl, rfl, rfl, rfl, rfl, rfl, rfl⟩

/-- C7: on rasters with differing shapes, the raster whose shape-dimension
sum is strictly larger is resampled onto the grid of the other, which is
returned unchanged; the resampled output carries the target's shape and
geotransform exactly. -/
theorem C7_resample_larger (a b : Raster) (hne : a.shape ≠ b.shape) :
    (a.shape.sum > b.shape.sum →
      reconcile_grids a b = (reproject_match a b, b) ∧
      (reproject_match a b).shape = b.shape ∧
      (reproject_match a b).transform = b.transform) ∧
    (b.shape.sum > a.shape.sum →
      reconcile_grids a b = (a, reproject_match b a) ∧
      (reproject_match b a).shape = a.shape ∧
      (reproject_match b a).transform = a.transform) := by
  constructor
  · intro hgt
    exact ⟨by simp [reconcile_grids, hne, resample_arrays, hgt], rfl, rfl⟩
  · intro hgt
    have hnotgt : ¬ a.shape.sum > b.shape.sum := by omega
    exact ⟨by simp [reconcile_grids, hne, resample_arrays, hnotgt], rfl, rfl⟩

/-- Witness for C7: a (1, 4, 4) raster (dimension sum 9) is resampled onto
the grid of a (1, 2, 2) raster (dimension sum 5). -/
theorem C7_resample_larger_witness :
    reconcile_grids rasterBig rasterSmall =
      (reproject_match rasterBig rasterSmall, rasterSmall) ∧
    (reproject_match rasterBig rasterSmall).shape = rasterSmall.shape ∧
    (reproject_match rasterBig rasterSmall).transform = rasterSmall.transform :=
  ⟨((C7_resample_larger rasterBig rasterSmall (by decide)).1 (by decide)).1,
   ((C7_resample_larger rasterBig rasterSmall (by decide)).1 (by decide)).2.1,
   ((C7_resample_larger rasterBig rasterSmall (by decide)).1 (by decide)).2.2⟩

/-- C8: when the two rasters already have identical shapes the
reconciliation step of `main` skips `resample_arrays` entirely and returns
both inputs unchanged, by value equality. -/
theorem C8_reconcile_noop (a b : Raster) (h : a.shape = b.shape) :
    reconcile_grids a b = (a, b) := by
  simp [reconcile_grids, h]

/-- Witness for C8 on a concrete raster pair of identical shape. -/
theorem C8_reconcile_noop_witness :
    reconcile_grids rasterSmall rasterSmall = (rasterSmall, rasterSmall) :=
  C8_reconcile_noop rasterSmall rasterSmall rfl

/-- C9 (code bug): full-range normalization with clamping is not idempotent
under the code's formula.  normalise([-1, 1]) = [1, 1] (pre-clamp
[1, 3]), and normalising that again gives [0, 0] (pre-clamp [-1, -1]) —
a difference of 1, far beyond any floating-point tolerance; every value in
this computation is exactly representable as a binary float, so numpy
computes the same numbers. -/
theorem C9_not_idempotent :
    normalise_arrays [-1, 1] none (some true) = [1, 1] ∧
    normalise_arrays (normalise_arrays [-1, 1] none (some true)) none (some true) =
      [0, 0] ∧
    normalise_arrays (normalise_arrays [-1, 1] none (some true)) none (some true) ≠
      normalise_arrays [-1, 1] none (some true) := by
  have h1 : normalise_arrays [-1, 1] none (some true) = [1, 1] := by
    norm_num [normalise_arrays, listMin, listMax, np_clip01]
  have h2 : normalise_arrays [1, 1] none (some true) = [0, 0] := by
    norm_num [normalise_arrays, listMin, listMax, np_clip01]
  refine ⟨h1, ?_, ?_⟩
  · rw [h1]; exact h2
  · rw [h1, h2]; norm_num

/-- C10: `normalise_arrays` clamps its output to [0, 1] whenever the `clip`
argument is not `None` — any `some b`, including `some false`, applies the
clamp to the unclamped result — and every clamped sample lies in [0, 1];
passing `None` skips the clamp. -/
theorem C10_clip_unless_none (array : List ℚ) (percentile_range : Option (ℚ × ℚ)) :
    (∀ b : Bool, normalise_arrays array percentile_range (some b) =
      (normalise_arrays array percentile_range none).map np_clip01) ∧
    (∀ b : Bool, ∀ v ∈ normalise_arrays array percentile_range (some b),
      0 ≤ v ∧ v ≤ 1) := by
  have hmap : ∀ b : Bool, normalise_arrays array percentile_range (some b) =
      (normalise_arrays array percentile_range none).map np_clip01 := fun _ => rfl
  refine ⟨hmap, ?_⟩
  intro b v hv
  rw [hmap b] at hv
  rcases List.mem_map.mp hv with ⟨u, _, rfl⟩
  unfold np_clip01
  exact ⟨le_min (le_max_right u 0) zero_le_one, min_le_right _ 1⟩

/-- Witness for C10 at the raster [0, 2] with percentile range (0, 100) and
`clip=False`: the output equals the clamped unclipped output, and the sample
1 of the result lies in [0, 1]. -/
theorem C10_clip_unless_none_witness :
    (normalise_arrays [0, 2] (some (0, 100)) (some false) =
      (normalise_arrays [0, 2] (some (0, 100)) none).map np_clip01) ∧
    (0 ≤ (1 : ℚ) ∧ (1 : ℚ) ≤ 1) :=
  ⟨(C10_clip_unless_none [0, 2] (some (0, 100))).1 false,
   (C10_clip_unless_none [0, 2] (some (0, 100))).2 false 1 (by
     have heval : normalise_arrays [0, 2] (some (0, 100)) (some false) = [0, 1] := by
       have h0 : ratFloorNat (0 : ℚ) = 0 := by norm_num [ratFloorNat]
       have h1 : ratFloorNat (1 : ℚ) = 1 := by norm_num [ratFloorNat]
       norm_num [normalise_arrays, np_percentile, npSort, insertAsc, h0, h1, np_clip01]
     rw [heval]
     simp)⟩

end ChangeDetection
